import Mathlib

/-
Verification of the jurigged hot-restart core against its specification.

The embedding below translates the two source files of the core,
src/jurigged/hot_restart_utils.py and src/jurigged/live.py, into Lean.
Python traceback chains become lists (head first, following tb_next),
frames become records of their code identity and position fields, and
the effectful wrapper loop becomes an explicit function from the
observable outcomes of its collaborators (the wrapped call, the name
lookup of the closure cell, the process-wide watcher) to the observable
result of one loop iteration.
-/

namespace Jurigged

/-- Code object identity (the Python f_code attribute), abstracted as a number:
two frames run the same code exactly when their identities are equal. -/
abbrev CodeId := Nat

/-- Model of a Python frame: code identity plus the f_lasti and f_lineno
fields read by the traceback builder. -/
structure Frame where
  f_code : CodeId
  f_lasti : Nat
  f_lineno : Nat
deriving DecidableEq, Repr

/-- Model of a traceback node (types.TracebackType): the frame it points at and
the recorded last-instruction and line fields. A traceback chain
tb, tb.tb_next, ... is modelled as a list, head first. -/
structure TB where
  tb_frame : Frame
  tb_lasti : Nat
  tb_lineno : Nat
deriving DecidableEq, Repr

/-- The counting loop of _create_undead_traceback (hot_restart_utils.py lines
207 to 210): while dead_tb is not None and dead_tb.tb_next is not None,
increment num_dead_frames and advance. The accumulator starts at -1 in the
caller (line 206). -/
def deadCountLoop : List TB → Int → Int
  | _ :: next :: rest, n => deadCountLoop (next :: rest) (n + 1)
  | _, n => n

/-- Where the counting loop leaves dead_tb: the final node of the chain, or
none when the chain was empty from the start. -/
def lastTB : List TB → Option TB
  | [] => none
  | [tb] => some tb
  | _ :: next :: rest => lastTB (next :: rest)

/-- The live-frame loop of _create_undead_traceback (lines 217 to 231): walk
f_back from the current frame and, for every frame whose code is not the
wrapper code, prepend a fresh traceback node recording that frame with its
f_lasti and f_lineno. The list live is the caller chain innermost first,
the order an f_back traversal visits it. -/
def buildLiveLoop : List Frame → CodeId → List TB → List TB
  | [], _, prev => prev
  | f :: rest, wc, prev =>
    if f.f_code ≠ wc then
      buildLiveLoop rest wc ({ tb_frame := f, tb_lasti := f.f_lasti, tb_lineno := f.f_lineno } :: prev)
    else
      buildLiveLoop rest wc prev

/-- Embedding of _create_undead_traceback(exc_tb, current_frame, wrapper_function)
(hot_restart_utils.py lines 203 to 232). Inputs: the dead exception trace as a
list of traceback nodes, the live caller chain innermost first, and the code
identity of the wrapper function argument. Output: the hybrid traceback and
num_dead_frames. The Python function allocates new TracebackType nodes and
never writes to its inputs, which the functional embedding reflects directly. -/
def create_undead_traceback (exc_tb : List TB) (live : List Frame) (wrapperCode : CodeId) :
    List TB × Int :=
  let n1 : Int := deadCountLoop exc_tb (-1)
  let n2 : Int := max 0 n1
  let n3 : Int :=
    match lastTB exc_tb with
    | some tb => if tb.tb_frame.f_code = wrapperCode then n2 + 1 else n2
    | none => n2
  (buildLiveLoop live wrapperCode exc_tb, n3)

/-- The traceback node the live-frame loop allocates for a live frame. -/
def frameToTB (f : Frame) : TB :=
  { tb_frame := f, tb_lasti := f.f_lasti, tb_lineno := f.f_lineno }

/-- An exception class, identified by a number together with whether it derives
from Exception (as opposed to deriving only from BaseException, the way
KeyboardInterrupt does): the except clause of both wrapper variants is
except Exception, which only catches the former kind. -/
structure ExcKind where
  kid : Nat
  isExceptionSub : Bool
deriving DecidableEq, Repr

/-- KeyboardInterrupt: derives from BaseException, not Exception. -/
def KeyboardInterruptK : ExcKind := ⟨0, false⟩

/-- StopIteration, the default member of propagated_exceptions (line 106). -/
def StopIterationK : ExcKind := ⟨1, true⟩

/-- ValueError, used as a concrete non-propagated exception in witnesses. -/
def ValueErrorK : ExcKind := ⟨2, true⟩

/-- What escapes a wrapper invocation: an application-level exception, the
NameError raised by looking up an unbound closure variable, or the
AttributeError raised by an attribute access on None. -/
inductive PyError
  | user (k : ExcKind)
  | nameError
  | attributeError
deriving DecidableEq, Repr

/-- The observable behaviour of one call of the wrapped target func: it either
returns a value or raises an exception of some kind. -/
inductive CallOutcome
  | ret (v : Nat)
  | exc (k : ExcKind)
deriving DecidableEq, Repr

/-- One post-mortem session dispatched by _start_post_mortem: the hybrid
traceback handed to the debugger together with num_dead_frames. -/
structure Session where
  tb : List TB
  numDead : Int
deriving DecidableEq, Repr

/-- Observable side effects of the wrapper loop: how many times the debugger
dispatch ran, how many times watch_instance.refresh ran, and the sessions
dispatched, in order. -/
structure Effects where
  debuggerCalls : Nat
  refreshCalls : Nat
  sessions : List Session
deriving DecidableEq, Repr

/-- The empty effect record. -/
def noEffects : Effects := ⟨0, 0, []⟩

/-- Concatenation of effect records of successive loop iterations. -/
def Effects.add (a b : Effects) : Effects :=
  ⟨a.debuggerCalls + b.debuggerCalls, a.refreshCalls + b.refreshCalls,
    a.sessions ++ b.sessions⟩

/-- Result of one iteration of the retry loop body: the call returned (the
wrapper returns the value), an error propagated out of the wrapper, or the
handler finished and the loop moves to the next attempt. -/
inductive IterOutcome
  | returned (v : Nat)
  | raised (e : PyError)
  | continueLoop
deriving DecidableEq, Repr

/-- One iteration of the retry-loop body shared by wrapped (hot_restart_utils.py
lines 174 to 199) and wrapped_async (lines 135 to 160), as a function of the
observable outcomes of its collaborators.

builderRef is the value the handler obtains for the name wrapped_async, the
third argument of _create_undead_traceback (lines 150 and 189): in the
coroutine branch the name is bound to the wrapper function itself; in the
sync branch the closure cell named wrapped_async is never assigned, so the
lookup raises NameError, modelled by none.

watcher is the value read from get_watch_instance() at wrapper entry
(lines 131 and 170): the process-wide watch_instance global, which stays
None until set_watch_instance runs (live.py lines 268 to 275). The call
watch_instance.refresh on None raises AttributeError.

The debugger dispatch of _start_post_mortem runs before the refresh call, so
its session is recorded even when the refresh then fails. excTb is the dead
trace of the raised exception and live the caller chain from sys._getframe(1),
innermost first. The global EXIT_THIS_FRAME is set to False on entry and no
code ever sets it to True, so a completed handler always reenters the loop. -/
def wrappedLoopBody (propagated : List ExcKind) (propKI : Bool)
    (builderRef : Option CodeId) (watcher : Option Unit)
    (excTb : List TB) (live : List Frame) (call : CallOutcome) :
    IterOutcome × Effects :=
  match call with
  | .ret v => (.returned v, noEffects)
  | .exc k =>
    if k.isExceptionSub then
      if k ∈ propagated then (.raised (.user k), noEffects)
      else if propKI ∧ k = KeyboardInterruptK then (.raised (.user k), noEffects)
      else
        match builderRef with
        | none => (.raised .nameError, noEffects)
        | some wc =>
          let r := create_undead_traceback excTb live wc
          match watcher with
          | none => (.raised .attributeError, ⟨1, 0, [⟨r.1, r.2⟩]⟩)
          | some _ => (.continueLoop, ⟨1, 1, [⟨r.1, r.2⟩]⟩)
    else
      (.raised (.user k), noEffects)

/-- The loop body of the synchronous wrapper wrapped (lines 169 to 199): its
handler passes the name wrapped_async to _create_undead_traceback (line 189),
and for a non-coroutine target that closure cell is unbound, so the builder
reference resolves to none. -/
def wrapped_body (propagated : List ExcKind) (propKI : Bool) (watcher : Option Unit)
    (excTb : List TB) (live : List Frame) (call : CallOutcome) :
    IterOutcome × Effects :=
  wrappedLoopBody propagated propKI none watcher excTb live call

/-- The loop body of the asynchronous wrapper wrapped_async (lines 130 to 160):
its handler passes wrapped_async itself, whose code identity is ownCode. -/
def wrapped_async_body (propagated : List ExcKind) (propKI : Bool) (ownCode : CodeId)
    (watcher : Option Unit) (excTb : List TB) (live : List Frame) (call : CallOutcome) :
    IterOutcome × Effects :=
  wrappedLoopBody propagated propKI (some ownCode) watcher excTb live call

/-- Overall outcome of a bounded run of the retry loop. -/
inductive RunOutcome
  | returned (v : Nat)
  | raised (e : PyError)
  | outOfFuel
deriving DecidableEq, Repr

/-- Bounded run of the retry loop: script gives the outcome of the wrapped call
at each attempt index, fuel bounds the number of iterations examined (the loop
itself has no bound: EXIT_THIS_FRAME never becomes True). Returns the overall
outcome, the number of calls made to the wrapped target, and the accumulated
effects. -/
def wrappedRun (propagated : List ExcKind) (propKI : Bool) (builderRef : Option CodeId)
    (watcher : Option Unit) (excTb : List TB) (live : List Frame)
    (script : Nat → CallOutcome) : Nat → Nat → RunOutcome × Nat × Effects
  | _, 0 => (.outOfFuel, 0, noEffects)
  | attempt, fuel + 1 =>
    match wrappedLoopBody propagated propKI builderRef watcher excTb live (script attempt) with
    | (.returned v, eff) => (.returned v, 1, eff)
    | (.raised e, eff) => (.raised e, 1, eff)
    | (.continueLoop, eff) =>
      let r := wrappedRun propagated propKI builderRef watcher excTb live script (attempt + 1) fuel
      (r.1, r.2.1 + 1, Effects.add eff r.2.2)

/-- Outcome of executing one Python statement that either completes normally
or raises an exception, identified by a number. -/
inductive StepOutcome
  | ok
  | raises (e : Nat)
deriving DecidableEq, Repr

/-- Inputs of one Watcher.refresh call (live.py lines 114 to 125), as the
observable outcomes of its collaborators: the registry lookup for the path
(cf is treated as truthy exactly when the lookup returned an object), and the
outcome of each of the three statements of the try block, namely
self.prerun.emit(path, cf), cf.refresh() and self.postrun.emit(path, cf);
each either returns or raises an exception, identified by a number. -/
structure RefreshEnv where
  cf : Option Unit
  prerunEmit : StepOutcome
  cfRefresh : StepOutcome
  postrunEmit : StepOutcome
deriving DecidableEq, Repr

/-- Observable behaviour of one Watcher.refresh call: which steps started,
whether the postrun emission completed, what the except clause logged through
registry.log, whether the registry-miss diagnostic was logged, and what
escaped to the caller of refresh. -/
structure RefreshOutcome where
  prerunRan : Bool
  patchRan : Bool
  postrunRan : Bool
  postrunCompleted : Bool
  loggedException : Option Nat
  loggedMiss : Bool
  raisedToCaller : Option Nat
deriving DecidableEq, Repr

/-- Embedding of Watcher.refresh (live.py lines 114 to 125). The try block
spans all three statements, and the except Exception clause catches whatever
any of them raises and passes it to self.registry.log; the logger sink is
specified not to raise. -/
def Watcher_refresh (env : RefreshEnv) : RefreshOutcome :=
  match env.cf with
  | none => ⟨false, false, false, false, none, true, none⟩
  | some _ =>
    match env.prerunEmit with
    | .raises e => ⟨true, false, false, false, some e, false, none⟩
    | .ok =>
      match env.cfRefresh with
      | .raises e => ⟨true, true, false, false, some e, false, none⟩
      | .ok =>
        match env.postrunEmit with
        | .raises e => ⟨true, true, true, false, some e, false, none⟩
        | .ok => ⟨true, true, true, true, none, false, none⟩

/-- What a post-mortem backend call does: runs its real debugging session,
falls back to the builtin breakpoint, or lets an ImportError escape. -/
inductive PMResult
  | sessionRun
  | breakpointRun
  | raisedImportError
deriving DecidableEq, Repr

/-- Embedding of _start_pudb_post_mortem (hot_restart_utils.py lines 257 to
262): the statement import pudb stands outside any try block, so when the
module is unavailable at call time the ImportError propagates; otherwise
pudb.post_mortem runs. -/
def start_pudb_post_mortem (pudbAvailable : Bool) : PMResult :=
  if pudbAvailable then .sessionRun else .raisedImportError

/-- Embedding of _start_pydevd_post_mortem (lines 263 to 282): import pydevd is
guarded by try, with except ImportError running breakpoint() and returning;
when the import succeeds but pydevd.get_global_debugger() returns None the
function also falls back to breakpoint(); otherwise it signals the debug
server to stop on the unhandled exception. -/
def start_pydevd_post_mortem (pydevdAvailable : Bool) (globalDebugger : Option Unit) :
    PMResult :=
  if pydevdAvailable then
    match globalDebugger with
    | none => .breakpointRun
    | some _ => .sessionRun
  else .breakpointRun

/-- State of a JuriggedHandler for one watched path (live.py lines 141 to 147):
the last recorded modification time (0 at construction) and the pending
threading.Timer, if any, identified by a number. The normalized path itself is
passed separately. -/
structure HandlerState where
  mtime : Nat
  timer : Option Nat
deriving DecidableEq, Repr

/-- An action performed by on_modified: cancelling a pending timer, starting a
new timer with the configured debounce interval, or running the refresh
synchronously on the observer thread. -/
inductive TimerAction
  | cancel (id : Nat)
  | schedule (id : Nat) (interval : Nat)
  | syncRefresh
deriving DecidableEq, Repr

/-- Embedding of JuriggedHandler.on_modified (live.py lines 153 to 168).
debounce = 0 models a falsy self.watcher.debounce (None or 0). fsMtime is the
value os.path.getmtime returns for the event path, and freshTimerId identifies
the threading.Timer constructed on line 163. In the synchronous branch,
self._refresh (lines 149 to 151) calls watcher.refresh and then clears
self.timer. Returns the updated handler state and the actions performed, in
order. -/
def on_modified (normalizedFilename : Nat) (debounce : Nat) (s : HandlerState)
    (evSrcPath : Nat) (fsMtime : Nat) (freshTimerId : Nat) :
    HandlerState × List TimerAction :=
  if evSrcPath = normalizedFilename then
    if fsMtime ≠ s.mtime then
      if debounce ≠ 0 then
        match s.timer with
        | some old =>
          (⟨fsMtime, some freshTimerId⟩,
           [.cancel old, .schedule freshTimerId debounce])
        | none =>
          (⟨fsMtime, some freshTimerId⟩, [.schedule freshTimerId debounce])
      else
        (⟨fsMtime, none⟩, [.syncRefresh])
    else (s, [])
  else (s, [])

/-- Number of timers an action list starts. -/
def countSchedules : List TimerAction → Nat
  | [] => 0
  | .schedule _ _ :: rest => countSchedules rest + 1
  | _ :: rest => countSchedules rest

/-- A Python callable as the wrapping machinery observes it: an identity, the
inspect.isclass test, and the HOT_RESTART_ALREADY_WRAPPED marker attribute
(absent attributes read as False via getattr with default). -/
structure Callable where
  cid : Nat
  isClass : Bool
  alreadyWrapped : Bool
deriving DecidableEq, Repr

/-- The error hot_restart_wrap raises on a class argument (line 111). -/
inductive WrapError
  | valueError
deriving DecidableEq, Repr

/-- The fresh wrapper closure hot_restart_wrap builds around an unwrapped
function (lines 126 to 201): a new function object carrying the target
metadata through functools.wraps, with HOT_RESTART_ALREADY_WRAPPED set to True
on it before it is returned (lines 162 and 200). It differs from the target
object, which is left unmarked. -/
def mkWrapper (f : Callable) : Callable := ⟨f.cid, false, true⟩

/-- Embedding of hot_restart_wrap(func) for a concrete callable argument
(hot_restart_utils.py lines 103 to 201): a class argument raises ValueError
before anything is touched (lines 110 to 111); an argument already carrying
the HOT_RESTART_ALREADY_WRAPPED marker is returned as is (lines 121 to 123);
otherwise a fresh marked wrapper is built and returned. The func=None
decorator-factory path and the propagated-exception keywords do not affect
these steps and are not modelled here. -/
def hot_restart_wrap (f : Callable) : Except WrapError Callable :=
  if f.isClass then .error .valueError
  else if f.alreadyWrapped then .ok f
  else .ok (mkWrapper f)

/-- A member of a class dict (vars(cls)): a callable value, which can be a
function or a nested class (classes are callable), or a non-callable value. -/
inductive Member
  | callableM (c : Callable)
  | nonCallable
deriving DecidableEq, Repr

/-- Embedding of hot_restart_wrap_class(cls) (lines 95 to 101): iterate the
class dict in order and setattr every callable member to
hot_restart_wrap(member). A raised WrapError propagates and aborts the loop:
the returned list is the class dict at that moment, with earlier members
already replaced and the raising member and all later ones untouched, paired
with the escaped error, if any. -/
def hot_restart_wrap_class : List (Nat × Member) → List (Nat × Member) × Option WrapError
  | [] => ([], none)
  | (k, Member.nonCallable) :: rest =>
    let r := hot_restart_wrap_class rest
    ((k, Member.nonCallable) :: r.1, r.2)
  | (k, Member.callableM c) :: rest =>
    match hot_restart_wrap c with
    | .error e => ((k, Member.callableM c) :: rest, some e)
    | .ok c2 =>
      let r := hot_restart_wrap_class rest
      ((k, Member.callableM c2) :: r.1, r.2)

/-- The replacement hot_restart_wrap_class installs for one member when no
member raises: callable members become their hot_restart_wrap result,
non-callable members stay untouched. -/
def wrapMember : Nat × Member → Nat × Member
  | (k, Member.callableM c) =>
    (k, Member.callableM (if c.alreadyWrapped then c else mkWrapper c))
  | (k, Member.nonCallable) => (k, Member.nonCallable)

end Jurigged

namespace Jurigged

theorem deadCountLoop_eq (l : List TB) : ∀ n : Int,
    deadCountLoop l n = n + ((l.length - 1 : Nat) : Int) := by
  induction l with
  | nil => intro n; simp [deadCountLoop]
  | cons a t ih =>
    intro n
    cases t with
    | nil => simp [deadCountLoop]
    | cons b t2 =>
      rw [deadCountLoop, ih (n + 1)]
      simp [List.length_cons]
      ring

theorem lastTB_eq (l : List TB) : lastTB l = l.getLast? := by
  induction l with
  | nil => rfl
  | cons a t ih =>
    cases t with
    | nil => rfl
    | cons b t2 =>
      rw [lastTB, ih, List.getLast?_cons_cons]

theorem buildLiveLoop_eq (l : List Frame) (wc : CodeId) : ∀ prev : List TB,
    buildLiveLoop l wc prev =
      ((l.filter (fun f => f.f_code ≠ wc)).reverse.map frameToTB) ++ prev := by
  induction l with
  | nil => intro prev; simp [buildLiveLoop]
  | cons f rest ih =>
    intro prev
    by_cases h : f.f_code = wc
    · rw [buildLiveLoop, if_neg (by simp [h]), ih]
      simp [List.filter_cons, h]
    · rw [buildLiveLoop, if_pos h, ih]
      simp [List.filter_cons, h, frameToTB]

/-- C2 counterexample: the claim says the baseline dead-frame count is the
number of dead frames minus one, clamped at zero. On a dead trace of two
frames (codes 5 and 6, wrapper code 99, so no increment applies) the claimed
value is max 0 (2 - 1) + 0 = 1, but the source computes 0: its counter starts
at -1 and the loop increments only once per frame that has a successor. -/
theorem num_dead_frames_counterexample :
    (create_undead_traceback
      [⟨⟨5, 1, 2⟩, 1, 2⟩, ⟨⟨6, 3, 4⟩, 3, 4⟩] [] 99).2 = 0 ∧
    max 0 ((([⟨⟨5, 1, 2⟩, 1, 2⟩, ⟨⟨6, 3, 4⟩, 3, 4⟩] : List TB).length : Int) - 1) +
      (if (6 : CodeId) = 99 then 1 else 0) = 1 := by
  constructor
  · rfl
  · decide

/-- C2 (amended): for every dead exception trace, the dead-frame count computed
while building the hybrid trace equals the number of dead frames minus two,
clamped at zero (the walk starts its counter at minus one and stops at the
final frame), and is incremented by exactly one more if and only if the
deepest dead frame has the code identity of the wrapper function. -/
theorem num_dead_frames_formula (exc_tb : List TB) (live : List Frame) (wc : CodeId) :
    (create_undead_traceback exc_tb live wc).2 =
      max 0 ((exc_tb.length : Int) - 2) +
      (match exc_tb.getLast? with
       | some tb => if tb.tb_frame.f_code = wc then 1 else 0
       | none => 0) := by
  cases exc_tb with
  | nil => rfl
  | cons a t =>
    simp only [create_undead_traceback, deadCountLoop_eq, lastTB_eq]
    obtain ⟨x, hx⟩ : ∃ x, (a :: t).getLast? = some x :=
      ⟨(a :: t).getLast (by simp), List.getLast?_eq_getLast _ (by simp)⟩
    rw [hx]
    have hlen : (((a :: t).length - 1 : Nat) : Int) = (t.length : Int) := by
      simp
    rw [hlen]
    have hmax : max 0 (-1 + (t.length : Int)) = max 0 (((a :: t).length : Int) - 2) := by
      simp only [List.length_cons]
      push_cast
      omega
    rw [hmax]
    by_cases hc : x.tb_frame.f_code = wc <;> simp [hc]

/-- C1: the claim says the synchronous and asynchronous wrapper variants behave
identically, each building the hybrid traceback eliding frames whose code
identity equals its own. The source contradicts this: wrapped passes the name
wrapped_async to _create_undead_traceback (line 189), and for a non-coroutine
target that closure cell is never assigned, so on any caught non-propagated
exception the synchronous handler raises NameError and never builds a
traceback, starts a session, refreshes or retries, while the asynchronous
handler (line 150) proceeds as claimed, eliding its own frames (code 7 below
is the async wrapper and is absent from the session traceback). -/
theorem sync_handler_unbound_wrapped_async :
    wrapped_body [StopIterationK] true (some ())
        [⟨⟨3, 0, 10⟩, 0, 10⟩, ⟨⟨4, 0, 20⟩, 0, 20⟩] [⟨7, 5, 30⟩, ⟨8, 6, 40⟩]
        (.exc ValueErrorK)
      = (.raised .nameError, noEffects) ∧
    wrapped_async_body [StopIterationK] true 7 (some ())
        [⟨⟨3, 0, 10⟩, 0, 10⟩, ⟨⟨4, 0, 20⟩, 0, 20⟩] [⟨7, 5, 30⟩, ⟨8, 6, 40⟩]
        (.exc ValueErrorK)
      = (.continueLoop,
         ⟨1, 1, [⟨[⟨⟨8, 6, 40⟩, 6, 40⟩, ⟨⟨3, 0, 10⟩, 0, 10⟩, ⟨⟨4, 0, 20⟩, 0, 20⟩], 0⟩]⟩) := by
  decide

/-- C4 counterexample: the claim says that with the process-wide watcher unset
the post-session refresh is a no-op, the retry loop proceeds, and no exception
is thrown due to the missing watcher. At a concrete recovery entry with
watcher none, the asynchronous wrapper instead raises AttributeError at the
watch_instance.refresh call on None (after dispatching the debugger session,
with zero refresh calls), and the synchronous wrapper raises NameError even
earlier; neither iteration continues the loop. -/
theorem no_watcher_counterexample :
    wrapped_async_body [StopIterationK] true 7 none
        [⟨⟨3, 0, 10⟩, 0, 10⟩, ⟨⟨4, 0, 20⟩, 0, 20⟩] [⟨8, 6, 40⟩] (.exc ValueErrorK)
      = (.raised .attributeError,
         ⟨1, 0, [⟨[⟨⟨8, 6, 40⟩, 6, 40⟩, ⟨⟨3, 0, 10⟩, 0, 10⟩, ⟨⟨4, 0, 20⟩, 0, 20⟩], 0⟩]⟩) ∧
    wrapped_body [StopIterationK] true none
        [⟨⟨3, 0, 10⟩, 0, 10⟩, ⟨⟨4, 0, 20⟩, 0, 20⟩] [⟨8, 6, 40⟩] (.exc ValueErrorK)
      = (.raised .nameError, noEffects) := by
  decide

/-- C4 (amended): for every invocation of a wrapped callable that enters
recovery while the process-wide active watcher is unset, the recovery path is
not a no-op: the asynchronous variant dispatches the debugger session and then
raises AttributeError at the refresh call on the missing watcher (zero refresh
calls), and the synchronous variant raises NameError while building the
traceback; in both variants the exception aborts the retry loop. -/
theorem no_watcher_recovery_raises (propagated : List ExcKind) (propKI : Bool)
    (ownCode : CodeId) (excTb : List TB) (live : List Frame) (k : ExcKind)
    (hsub : k.isExceptionSub = true) (hprop : k ∉ propagated) :
    wrapped_async_body propagated propKI ownCode none excTb live (.exc k)
      = (.raised .attributeError,
         ⟨1, 0, [⟨(create_undead_traceback excTb live ownCode).1,
                  (create_undead_traceback excTb live ownCode).2⟩]⟩) ∧
    wrapped_body propagated propKI none excTb live (.exc k)
      = (.raised .nameError, noEffects) := by
  have hki : ¬(propKI ∧ k = KeyboardInterruptK) := by
    rintro ⟨-, rfl⟩
    simp [KeyboardInterruptK] at hsub
  constructor <;>
    simp [wrapped_async_body, wrapped_body, wrappedLoopBody, hsub, hprop, hki]

/-- C4 witness: the amended statement at a concrete input. -/
theorem no_watcher_recovery_raises_witness :
    wrapped_async_body [StopIterationK] true 9 none [] [] (.exc ValueErrorK)
      = (.raised .attributeError,
         ⟨1, 0, [⟨(create_undead_traceback [] [] 9).1,
                  (create_undead_traceback [] [] 9).2⟩]⟩) ∧
    wrapped_body [StopIterationK] true none [] [] (.exc ValueErrorK)
      = (.raised .nameError, noEffects) :=
  no_watcher_recovery_raises [StopIterationK] true 9 [] [] ValueErrorK rfl (by decide)

/-- C7: for every wrapped callable (builderRef ranges over both wrapper
variants) and every exception whose kind is in the configured
propagated-exception set, or that is KeyboardInterrupt while interrupt
propagation is enabled, the wrapper re-raises the exception unchanged to its
caller after a single call of the target: zero debugger invocations, zero
refresh calls, zero sessions and zero retries. -/
theorem propagated_exception_bypass (propagated : List ExcKind) (propKI : Bool)
    (builderRef : Option CodeId) (watcher : Option Unit) (excTb : List TB)
    (live : List Frame) (script : Nat → CallOutcome) (attempt fuel : Nat) (k : ExcKind)
    (hcall : script attempt = .exc k)
    (hk : k ∈ propagated ∨ (propKI = true ∧ k = KeyboardInterruptK)) :
    wrappedRun propagated propKI builderRef watcher excTb live script attempt (fuel + 1)
      = (.raised (.user k), 1, noEffects) := by
  have hbody : wrappedLoopBody propagated propKI builderRef watcher excTb live (.exc k)
      = (.raised (.user k), noEffects) := by
    rcases hk with hmem | ⟨hki, rfl⟩
    · by_cases hsub : k.isExceptionSub <;> simp [wrappedLoopBody, hsub, hmem]
    · simp [wrappedLoopBody, KeyboardInterruptK]
  simp [wrappedRun, hcall, hbody]

/-- C7 witness: a propagated StopIteration raised at the first attempt passes
through unchanged with one target call and no effects. -/
theorem propagated_exception_bypass_witness :
    wrappedRun [StopIterationK] true none none [] []
        (fun _ => .exc StopIterationK) 0 1
      = (.raised (.user StopIterationK), 1, noEffects) :=
  propagated_exception_bypass [StopIterationK] true none none [] []
    (fun _ => .exc StopIterationK) 0 0 StopIterationK rfl (Or.inl (by decide))

/-- C3: for every dead exception trace and live caller chain, the hybrid trace
built by _create_undead_traceback is exactly the live caller frames whose code
identity differs from the wrapper code (wrapper frames absent), each recorded
with that frames f_lasti and f_lineno, prepended in front of the dead trace,
which appears unchanged as the tail; the embedding is a pure function, so the
inputs are untouched, matching the side-effect-free guarantee. -/
theorem hybrid_trace_spec (exc_tb : List TB) (live : List Frame) (wc : CodeId) :
    (create_undead_traceback exc_tb live wc).1 =
      ((live.filter (fun f => f.f_code ≠ wc)).reverse.map frameToTB) ++ exc_tb := by
  simp only [create_undead_traceback]
  exact buildLiveLoop_eq live wc exc_tb

/-- C5 counterexample: the claim says an exception raised by a prerun or
postrun subscriber propagates to the caller of refresh rather than being
caught. At a registered path whose prerun emission raises exception 5, the
source instead catches it in the except clause spanning the whole try block
and logs it: nothing reaches the caller. -/
theorem prerun_exception_caught :
    Watcher_refresh ⟨some (), .raises 5, .ok, .ok⟩
      = ⟨true, false, false, false, some 5, false, none⟩ := by
  decide

/-- C5 (amended): Watcher.refresh never propagates an exception to its caller:
the try block spans the prerun emission, the patch application and the postrun
emission, and an exception from any of the three is caught and logged alike.
In particular an exception from the target refresh() is logged and the postrun
event is not emitted, and an exception from a prerun subscriber is likewise
caught, skipping the patch step. -/
theorem refresh_isolation :
    (∀ env : RefreshEnv, (Watcher_refresh env).raisedToCaller = none) ∧
    (∀ env : RefreshEnv, ∀ e : Nat, env.cf ≠ none → env.prerunEmit = .ok →
      env.cfRefresh = .raises e →
      Watcher_refresh env = ⟨true, true, false, false, some e, false, none⟩) ∧
    (∀ env : RefreshEnv, ∀ e : Nat, env.cf ≠ none → env.prerunEmit = .raises e →
      Watcher_refresh env = ⟨true, false, false, false, some e, false, none⟩) := by
  refine ⟨?_, ?_, ?_⟩
  · rintro ⟨cf, pre, r, post⟩
    cases cf <;> cases pre <;> cases r <;> cases post <;> rfl
  · rintro ⟨cf, pre, r, post⟩ e h1 h2 h3
    cases cf
    · exact absurd rfl h1
    · subst h2; subst h3; rfl
  · rintro ⟨cf, pre, r, post⟩ e h1 h2
    cases cf
    · exact absurd rfl h1
    · subst h2; rfl

/-- C5 witness: a failing patch application is logged and postrun is skipped. -/
theorem refresh_isolation_witness :
    Watcher_refresh ⟨some (), .ok, .raises 3, .ok⟩
      = ⟨true, true, false, false, some 3, false, none⟩ :=
  refresh_isolation.2.1 ⟨some (), .ok, .raises 3, .ok⟩ 3 (by decide) rfl rfl

/-- C6 counterexample: the claim says every configured backend falls back to
an unconditional breakpoint when its runtime dependency is unavailable at call
time. The pudb backend does not: its import statement stands outside any try
block, so with pudb unavailable the ImportError propagates out of the
dispatch instead of reaching a breakpoint. -/
theorem pudb_unavailable_raises :
    start_pudb_post_mortem false = PMResult.raisedImportError := by
  decide

/-- C6 (amended): the pydevd backend falls back to an unconditional breakpoint
both when its import fails and when the global debugger is unset, and never
raises; the pudb backend performs no such fallback, letting the ImportError
escape when its dependency is unavailable, and runs its session otherwise. -/
theorem backend_fallback :
    (∀ gd : Option Unit, start_pydevd_post_mortem false gd = .breakpointRun) ∧
    start_pydevd_post_mortem true none = .breakpointRun ∧
    start_pudb_post_mortem false = .raisedImportError ∧
    start_pudb_post_mortem true = .sessionRun :=
  ⟨fun _ => rfl, rfl, rfl, rfl⟩

/-- C8: for every handler state, a qualifying event (matching normalized path,
modification time differing from the last recorded one) with a debounce
interval configured cancels the prior pending timer when one exists and
schedules exactly one new timer of the configured interval, leaving exactly
that timer pending; an event with an unchanged modification time performs no
action and leaves the state untouched; and with no debounce configured the
refresh runs synchronously and no timer is pending afterwards. -/
theorem debounce_single_timer (norm deb : Nat) (s : HandlerState) (p m fid : Nat) :
    (p = norm → m ≠ s.mtime → deb ≠ 0 →
      (on_modified norm deb s p m fid).1.timer = some fid ∧
      countSchedules (on_modified norm deb s p m fid).2 = 1 ∧
      TimerAction.schedule fid deb ∈ (on_modified norm deb s p m fid).2 ∧
      (∀ old, s.timer = some old →
        TimerAction.cancel old ∈ (on_modified norm deb s p m fid).2)) ∧
    (p = norm → m = s.mtime → on_modified norm deb s p m fid = (s, [])) ∧
    (p = norm → m ≠ s.mtime → deb = 0 →
      on_modified norm deb s p m fid = (⟨m, none⟩, [TimerAction.syncRefresh])) := by
  refine ⟨?_, ?_, ?_⟩
  · intro h1 h2 h3
    subst h1
    cases ht : s.timer with
    | none =>
      refine ⟨?_, ?_, ?_, ?_⟩ <;> simp [on_modified, h2, h3, ht, countSchedules]
    | some old =>
      refine ⟨?_, ?_, ?_, ?_⟩ <;> simp [on_modified, h2, h3, ht, countSchedules]
  · intro h1 h2
    subst h1
    simp [on_modified, h2]
  · intro h1 h2 h3
    subst h1
    subst h3
    simp [on_modified, h2]

/-- C8 witness: a qualifying event with a pending timer 4 leaves exactly the
fresh timer 5 pending and schedules exactly one timer. -/
theorem debounce_single_timer_witness :
    (on_modified 1 50 ⟨10, some 4⟩ 1 11 5).1.timer = some 5 ∧
    countSchedules (on_modified 1 50 ⟨10, some 4⟩ 1 11 5).2 = 1 := by
  have h := (debounce_single_timer 1 50 ⟨10, some 4⟩ 1 11 5).1 rfl (by decide) (by decide)
  exact ⟨h.1, h.2.1⟩

/-- C9: wrapping is idempotent: a callable already carrying the wrapped marker
is returned by hot_restart_wrap as the identical value, and for an unmarked
function a single fresh wrapper is created with the marker set at that first
wrap, after which wrapping it again returns it unchanged, so no second
wrapper ever arises and the marker is set exactly once. -/
theorem hot_restart_wrap_idempotent :
    (∀ f : Callable, f.alreadyWrapped = true → f.isClass = false →
      hot_restart_wrap f = .ok f) ∧
    (∀ f : Callable, f.alreadyWrapped = false → f.isClass = false →
      hot_restart_wrap f = .ok (mkWrapper f) ∧
      (mkWrapper f).alreadyWrapped = true ∧
      hot_restart_wrap (mkWrapper f) = .ok (mkWrapper f)) := by
  constructor
  · intro f h1 h2
    simp [hot_restart_wrap, h1, h2]
  · intro f h1 h2
    refine ⟨?_, rfl, ?_⟩ <;> simp [hot_restart_wrap, mkWrapper, h1, h2]

/-- C9 witness: wrapping an already-marked callable returns it unchanged. -/
theorem hot_restart_wrap_idempotent_witness :
    hot_restart_wrap ⟨3, false, true⟩ = .ok ⟨3, false, true⟩ :=
  hot_restart_wrap_idempotent.1 ⟨3, false, true⟩ rfl rfl

/-- C10 counterexample: the claim says hot_restart_wrap_class replaces every
callable member of the class with its wrapped version. A nested class is a
callable member, and hot_restart_wrap raises ValueError on it: on a class
dict holding function 10, nested class 11 and function 12, the loop wraps
member 10, then aborts with the ValueError, leaving members 11 and 12
unreplaced. -/
theorem wrap_class_nested_class_aborts :
    hot_restart_wrap_class
        [(0, Member.callableM ⟨10, false, false⟩),
         (1, Member.callableM ⟨11, true, false⟩),
         (2, Member.callableM ⟨12, false, false⟩)]
      = ([(0, Member.callableM ⟨10, false, true⟩),
          (1, Member.callableM ⟨11, true, false⟩),
          (2, Member.callableM ⟨12, false, false⟩)], some .valueError) := by
  decide

/-- C10 (amended): for every class argument, hot_restart_wrap raises ValueError
without touching it (the embedding raises before producing any value), and
hot_restart_wrap_class replaces every callable member with its wrapped version
provided no callable member is itself a class; when a member is a class, the
raised ValueError aborts the member loop partway instead. -/
theorem wrap_class_spec :
    (∀ c : Callable, c.isClass = true → hot_restart_wrap c = .error .valueError) ∧
    (∀ ms : List (Nat × Member),
      (∀ k c, (k, Member.callableM c) ∈ ms → c.isClass = false) →
      hot_restart_wrap_class ms = (ms.map wrapMember, none)) := by
  constructor
  · intro c h
    simp [hot_restart_wrap, h]
  · intro ms
    induction ms with
    | nil => intro _; rfl
    | cons a rest ih =>
      intro h
      obtain ⟨k, mem⟩ := a
      have hrest := fun k2 c2 hm => h k2 c2 (List.mem_cons_of_mem _ hm)
      cases mem with
      | nonCallable =>
        simp [hot_restart_wrap_class, wrapMember, ih hrest]
      | callableM c =>
        have hc : c.isClass = false := h k c (List.mem_cons_self _ _)
        by_cases hw : c.alreadyWrapped <;>
          simp [hot_restart_wrap_class, hot_restart_wrap, wrapMember, hc, hw, ih hrest]

/-- C10 witness: a class dict with one plain function member is fully
replaced by its wrapped version with no error. -/
theorem wrap_class_spec_witness :
    hot_restart_wrap_class [(0, Member.callableM ⟨10, false, false⟩)]
      = ([(0, Member.callableM ⟨10, false, false⟩)].map wrapMember, none) :=
  wrap_class_spec.2 _ (by
    intro k c hm
    simp only [List.mem_singleton, Prod.mk.injEq] at hm
    obtain ⟨-, hc⟩ := hm
    injection hc with h2
    rw [h2])

end Jurigged
